import Mathlib

/-!
Verification of the go-bexpr core (grammar/ast.go, the PEG grammar actions,
the evaluator and the literal coercers) against its specification.

The Go code is shallowly embedded: Go `interface{}` runtime values become the
inductive `GoValue` (JSON-like datums: bools, int64 as `Int`, float64 carried
by `Rat`, strings, `[]interface{}` slices, string-keyed maps, the nil
interface, and the `*UndefinedType` absence sentinel).  A Go
`(value, error)` pair becomes `Res α`: `.ok v` for a nil error, `.errv v msg`
for a non-nil error together with the value returned beside it, and `.panic`
for Go runtime panics (failed type assertions, reflect panics, integer
division by zero).
-/

set_option maxRecDepth 4000

namespace Bexpr

/-- Outcome of a Go call returning `(value, error)`, plus runtime panics.
`errv v msg` records both the returned value and the non-nil error, since the
Go code returns meaningful values beside errors (for example `return true, err`). -/
inductive Res (α : Type) where
  | ok : α → Res α
  | errv : α → String → Res α
  | panic : String → Res α
  deriving DecidableEq, Repr

/-- Go runtime values as seen by the evaluator: the dynamic types a JSON-like
datum or a coerced literal can take.  `int` models `int64`, `float` models
`float64` with a `Rat` carrier (no claim exercises IEEE-754-specific
behaviour), `list` models `[]interface{}`, `map` models
`map[string]interface{}`, `null` the nil interface, and `undefined` the
`&undefined` (`*UndefinedType`) sentinel from the evaluator. -/
inductive GoValue where
  | bool : Bool → GoValue
  | int : Int → GoValue
  | float : Rat → GoValue
  | str : String → GoValue
  | list : List GoValue → GoValue
  | map : List (String × GoValue) → GoValue
  | null : GoValue
  | undefined : GoValue
  deriving Repr

mutual

/-- Go `fmt.Sprintf("%v", x)` for the values of `GoValue`.  Scalars follow
Go's rendering exactly (`true`/`false`, decimal int64, the string itself,
`<nil>` for the nil interface, `&{}` for the pointer to the empty
`UndefinedType` struct).  For the `Rat`-carried float64 the rendering agrees
with Go on integral values (`%v` of `2.0` is `"2"`); non-integral rationals
use the `Rat` printer, a divergence no claim's trace reaches. -/
def sprintfV : GoValue → String
  | .bool b => if b then "true" else "false"
  | .int n => toString n
  | .float q => if q.den = 1 then toString q.num else toString q
  | .str s => s
  | .list xs => "[" ++ sprintfVList xs ++ "]"
  | .map ps => "map[" ++ sprintfVMap ps ++ "]"
  | .null => "<nil>"
  | .undefined => "&\x7b\x7d"

/-- Elements of a slice, space-separated, as Go fmt prints them. -/
def sprintfVList : List GoValue → String
  | [] => ""
  | [x] => sprintfV x
  | x :: rest => sprintfV x ++ " " ++ sprintfVList rest

/-- Entries of a map as `key:value`, space-separated.  (Go sorts map keys
when printing; our association lists are kept in insertion order, a
divergence no claim's trace reaches.) -/
def sprintfVMap : List (String × GoValue) → String
  | [] => ""
  | [(k, v)] => k ++ ":" ++ sprintfV v
  | (k, v) :: rest => k ++ ":" ++ sprintfV v ++ " " ++ sprintfVMap rest

end

/-- Go `fmt.Sprintf("%T", x)`: the dynamic type name of a value. -/
def goTypeName : GoValue → String
  | .bool _ => "bool"
  | .int _ => "int64"
  | .float _ => "float64"
  | .str _ => "string"
  | .list _ => "[]interface \x7b\x7d"
  | .map _ => "map[string]interface \x7b\x7d"
  | .null => "<nil>"
  | .undefined => "*bexpr.UndefinedType"

/-- The `reflect.Kind` name of a value (`reflect.ValueOf(x).Kind().String()`),
without pointer indirection.  The nil interface has the zero `reflect.Value`,
whose kind prints as `invalid`; the `&undefined` sentinel is a pointer. -/
def goKindName : GoValue → String
  | .bool _ => "bool"
  | .int _ => "int64"
  | .float _ => "float64"
  | .str _ => "string"
  | .list _ => "slice"
  | .map _ => "map"
  | .null => "invalid"
  | .undefined => "ptr"

/-- Go `strings.HasPrefix(s, p)`: `s` starts with `p`.  Byte-level and
character-level prefix tests coincide on valid UTF-8 strings. -/
def strStartsWith (s p : String) : Bool :=
  p.data.isPrefixOf s.data

/-- Go `strings.Contains(s, sub)`: `sub` occurs inside `s`.  Byte-level and
character-level containment coincide on valid UTF-8 strings (a valid string
never matches starting at a continuation byte). -/
def strContains (s sub : String) : Bool :=
  (List.range (s.data.length + 1)).any (fun i => sub.data.isPrefixOf (s.data.drop i))

/-- Go `strings.Repeat(s, n)`. -/
def strRepeat (s : String) (n : Nat) : String :=
  String.join (List.replicate n s)

/-- Go `strconv.ParseBool`: the exact accepted tokens. -/
def parseBoolGo (s : String) : Option Bool :=
  if s = "1" ∨ s = "t" ∨ s = "T" ∨ s = "TRUE" ∨ s = "true" ∨ s = "True" then some true
  else if s = "0" ∨ s = "f" ∨ s = "F" ∨ s = "FALSE" ∨ s = "false" ∨ s = "False" then some false
  else none

/-- Digits of a decimal numeral to a natural number; `none` unless the list
is nonempty and all digits. -/
def digitsToNat (ds : List Char) : Option Nat :=
  if ds ≠ [] ∧ ds.all Char.isDigit then
    some (ds.foldl (fun acc c => acc * 10 + (c.toNat - 48)) 0)
  else none

/-- Go `strconv.ParseInt(s, 0, 64)` restricted to decimal numerals with an
optional sign, which is the only shape the grammar's `Integer` production and
`Sprintf("%v", int64)` can feed it (base prefixes `0x`/`0o`/`0b` and digit
underscores of base 0 are never produced there).  On syntax errors Go returns
`0` beside the error; on range errors it returns the clamped boundary. -/
def parseInt64Go (s : String) : Res Int :=
  let signed : Bool × List Char :=
    match s.data with
    | '-' :: rest => (true, rest)
    | '+' :: rest => (false, rest)
    | l => (false, l)
  match digitsToNat signed.2 with
  | none => .errv 0 ("strconv.ParseInt: parsing \"" ++ s ++ "\": invalid syntax")
  | some n =>
    let v : Int := if signed.1 then -(n : Int) else (n : Int)
    if v < -(2 ^ 63) then .errv (-(2 ^ 63)) ("strconv.ParseInt: parsing \"" ++ s ++ "\": value out of range")
    else if v > 2 ^ 63 - 1 then .errv (2 ^ 63 - 1) ("strconv.ParseInt: parsing \"" ++ s ++ "\": value out of range")
    else .ok v

/-- Go `strconv.ParseFloat(s, 64)` restricted to plain decimal numerals
`[sign] digits [. digits]`, the only shape the grammar's `Float` production
and the evaluator's number rendering can feed it (exponents, `Inf`, `NaN` and
hex floats are never produced there).  The value is carried exactly as a
rational; Go returns `0` beside a syntax error. -/
def parseFloatGo (s : String) : Res Rat :=
  let signed : Bool × List Char :=
    match s.data with
    | '-' :: rest => (true, rest)
    | '+' :: rest => (false, rest)
    | l => (false, l)
  let parts := signed.2.splitOn '.'
  let syntaxErr : Res Rat := .errv 0 ("strconv.ParseFloat: parsing \"" ++ s ++ "\": invalid syntax")
  match parts with
  | [intPart] =>
    match digitsToNat intPart with
    | some n => .ok (if signed.1 then -(n : Rat) else (n : Rat))
    | none => syntaxErr
  | [intPart, fracPart] =>
    match digitsToNat intPart, digitsToNat fracPart with
    | some n, some f =>
      let q : Rat := (n : Rat) + (f : Rat) / ((10 : Rat) ^ fracPart.length)
      .ok (if signed.1 then -q else q)
    | _, _ => syntaxErr
  | _ => syntaxErr

/-- `CoerceBool` from the coercion file: numeric zero tests for ints and
floats, `strconv.ParseBool` with a non-empty-string fallback for strings, and
`ParseBool(Sprintf("%v", v))` for everything else. -/
def coerceBool : GoValue → Res Bool
  | .int n => .ok (n != 0)
  | .float q => .ok (q != 0)
  | .str s =>
    match parseBoolGo s with
    | some b => .ok b
    | none => .ok (!s.isEmpty)
  | v =>
    match parseBoolGo (sprintfV v) with
    | some b => .ok b
    | none => .errv false ("strconv.ParseBool: parsing \"" ++ sprintfV v ++ "\": invalid syntax")

/-- `CoerceInt64`: `ParseInt(Sprintf("%v", v), 0, 64)`. -/
def coerceInt64 (v : GoValue) : Res Int :=
  parseInt64Go (sprintfV v)

/-- `CoerceFloat64`: `ParseFloat(Sprintf("%v", v), 64)`. -/
def coerceFloat64 (v : GoValue) : Res Rat :=
  parseFloatGo (sprintfV v)

/-- `UnaryOperator` from the AST file; `UnaryOpNot` is its only constant. -/
inductive UnaryOperator where
  | notOp : UnaryOperator
  deriving DecidableEq, Repr

/-- `BinaryOperator`: `BinaryOpAnd`, `BinaryOpOr`. -/
inductive BinaryOperator where
  | and : BinaryOperator
  | or : BinaryOperator
  deriving DecidableEq, Repr

/-- `MathOperator`: `MathOpValue` (`=`), `MathOpPlus`, `MathOpMinus`,
`MathOpMul`, `MathOpDiv`. -/
inductive MathOperator where
  | value : MathOperator
  | plus : MathOperator
  | minus : MathOperator
  | mul : MathOperator
  | div : MathOperator
  deriving DecidableEq, Repr

/-- `MatchOperator`: the twelve constants of the AST file, in declaration
order.  (The Go type is an int and the tests cast out-of-range values into
it, but the parser only ever produces these twelve.) -/
inductive MatchOperator where
  | equal : MatchOperator
  | notEqual : MatchOperator
  | inOp : MatchOperator
  | notIn : MatchOperator
  | isEmpty : MatchOperator
  | isNotEmpty : MatchOperator
  | matches : MatchOperator
  | notMatches : MatchOperator
  | lower : MatchOperator
  | lowerOrEqual : MatchOperator
  | higher : MatchOperator
  | higherOrEqual : MatchOperator
  deriving DecidableEq, Repr

/-- `MatchOperator.String()` from the AST file. -/
def MatchOperator.goString : MatchOperator → String
  | .equal => "Equal"
  | .notEqual => "Not Equal"
  | .inOp => "In"
  | .notIn => "Not In"
  | .isEmpty => "Is Empty"
  | .isNotEmpty => "Is Not Empty"
  | .matches => "Matches"
  | .notMatches => "Not Matches"
  | .lower => "Lower"
  | .higher => "Higher"
  | .lowerOrEqual => "Lower or Equal"
  | .higherOrEqual => "Higher or Equal"

/-- `MatchOperator.NotPresentDisposition()` from the AST file: the boolean an
operator yields when the left selector's path is absent. -/
def MatchOperator.notPresentDisposition : MatchOperator → Bool
  | .equal => false
  | .notEqual => true
  | .inOp => false
  | .notIn => true
  | .isEmpty => true
  | .isNotEmpty => false
  | .matches => false
  | .notMatches => true
  | .lower => true
  | .higher => false
  | .lowerOrEqual => true
  | .higherOrEqual => false

/-- `SelectorType`: `Unknown`, `Bexpr` (dot paths), `JsonPointer`. -/
inductive SelectorType where
  | unknown : SelectorType
  | bexpr : SelectorType
  | jsonPointer : SelectorType
  deriving DecidableEq, Repr

/-- `Selector`: a selector kind and its path segments. -/
structure Selector where
  type_ : SelectorType
  path : List String
  deriving DecidableEq, Repr

/-- `Selector.String()`: empty path renders empty; `Bexpr` joins with `.`,
`JsonPointer` joins with `/`, unknown kinds render empty. -/
def Selector.render (sel : Selector) : String :=
  if sel.path.isEmpty then ""
  else
    match sel.type_ with
    | .bexpr => String.intercalate "." sel.path
    | .jsonPointer => String.intercalate "/" sel.path
    | .unknown => ""

/-- `ValueType` constants, in declaration order (the numeric value is what
`%v` prints for the field). -/
inductive ValueType where
  | undefined : ValueType
  | bool : ValueType
  | int : ValueType
  | uint : ValueType
  | float32 : ValueType
  | float64 : ValueType
  | string : ValueType
  | reflect : ValueType
  deriving DecidableEq, Repr

/-- The numeric value of a `ValueType` constant (it is a Go `uint32` iota). -/
def ValueType.num : ValueType → Nat
  | .undefined => 0
  | .bool => 1
  | .int => 2
  | .uint => 3
  | .float32 => 4
  | .float64 => 5
  | .string => 6
  | .reflect => 7

/-- `MatchValue`: selector, declared type, raw literal text, and the
`Converted` memoization slot (an `interface{}`; the parser leaves it nil and
this evaluator never writes it). -/
structure MatchValue where
  selector : Selector
  type_ : ValueType
  raw : String
  converted : Option GoValue
  deriving Repr

mutual

/-- `ExpressionValue`: `Left`/`Right` are `interface{}` fields holding a
`*MatchValue`, a `*ExpressionValue`, or nil (`Operand.nil_`). -/
inductive ExpressionValue where
  | mk (left : Operand) (operator : MathOperator) (right : Operand)
  deriving Repr

/-- One `interface{}` operand slot of an `ExpressionValue`. -/
inductive Operand where
  | val (v : MatchValue)
  | expr (e : ExpressionValue)
  | nil_
  deriving Repr

end

/-- The `Left` field of an `ExpressionValue`. -/
def ExpressionValue.left : ExpressionValue → Operand
  | .mk l _ _ => l

/-- The `Operator` field of an `ExpressionValue`. -/
def ExpressionValue.operator : ExpressionValue → MathOperator
  | .mk _ o _ => o

/-- The `Right` field of an `ExpressionValue`. -/
def ExpressionValue.right : ExpressionValue → Operand
  | .mk _ _ r => r

/-- `MatchExpression`: operator, left `*ExpressionValue`, and right
`*ExpressionValue` which is nil (`none`) for the unary match operators. -/
structure MatchExpression where
  operator : MatchOperator
  left : ExpressionValue
  right : Option ExpressionValue
  deriving Repr

/-- The `Expression` interface: the node kinds the evaluator dispatches on. -/
inductive Expression where
  | unary (op : UnaryOperator) (operand : Expression)
  | binary (op : BinaryOperator) (left right : Expression)
  | matchExpr (m : MatchExpression)
  | exprValue (e : ExpressionValue)
  | matchValue (v : MatchValue)
  deriving Repr

/-- Semantic action of the grammar's `NotExpression` production: wrap the
operand in a Not node, except that a Not applied to a Not collapses to the
inner operand (the parse-time `not not X` optimization). -/
def notExpressionAction (e : Expression) : Expression :=
  match e with
  | .unary .notOp inner => inner
  | _ => .unary .notOp e

/-- Semantic action of the grammar's `MatchValueOpSelector` production
(`value in selector`, `value not in selector`): the selector is placed on
the match expression's left and the value on its right, each wrapped in an
identity (`MathOpValue`) `ExpressionValue`. -/
def matchValueOpSelectorAction (op : MatchOperator) (value selector : MatchValue) : MatchExpression :=
  { operator := op
    left := .mk (.val selector) .value .nil_
    right := some (.mk (.val value) .value .nil_) }

/-- Errors of the external `pointerstructure` resolver, as the evaluator
distinguishes them: the dedicated not-found error versus everything else. -/
inductive PtrErr where
  | notFound : PtrErr
  | other : String → PtrErr
  deriving DecidableEq, Repr

/-- Modelled from the spec (§4.3, §6): `pointerstructure.Pointer.Get`, the
external selector resolver, on JSON-like datums and with the default
configuration (no tag name, no transformation hook).  It walks the path,
looking segments up in maps (a missing key is the dedicated not-found
error) and as decimal indices in slices (a bad or out-of-range index is a
different error), and fails on non-container values. -/
def ptrGet : List String → GoValue → Except PtrErr GoValue
  | [], d => .ok d
  | k :: rest, d =>
    match d with
    | .map ps =>
      match ps.lookup k with
      | some v => ptrGet rest v
      | none => .error .notFound
    | .list xs =>
      match digitsToNat k.data with
      | some i =>
        match xs[i]? with
        | some v => ptrGet rest v
        | none => .error (.other ("index " ++ k ++ " out of range"))
      | none => .error (.other ("invalid index \"" ++ k ++ "\""))
    | _ => .error (.other ("invalid value kind at \"" ++ k ++ "\""))

/-- `evaluateNotPresent`: after a not-found error, decide whether the absence
disposition applies — the path must have length at least 2 and resolving the
path without its missing leaf must yield a map (a failed parent resolution
yields nil, whose kind is not map). -/
def evaluateNotPresent (path : List String) (datum : GoValue) : Bool :=
  if path.length < 2 then false
  else
    match ptrGet path.dropLast datum with
    | .ok (.map _) => true
    | _ => false

/-- The primitive-comparison kinds: which comparison function
`primitiveEqualityFn` / `primitiveLowerFn` select after
`reflect.Indirect`, keyed off the value's runtime kind.  `noFn` is the nil
function (slices, maps, the nil interface, and the dereferenced
`UndefinedType` struct). -/
inductive PrimKind where
  | boolK : PrimKind
  | intK : PrimKind
  | floatK : PrimKind
  | stringK : PrimKind
  | noFn : PrimKind
  deriving DecidableEq, Repr

/-- Kind dispatch shared by `primitiveEqualityFn` and `primitiveLowerFn`:
bool, the integer family, the float family, string; everything else gets no
function.  `reflect.Indirect` sends the `&undefined` pointer to the
`UndefinedType` struct, which gets no function. -/
def primKind : GoValue → PrimKind
  | .bool _ => .boolK
  | .int _ => .intK
  | .float _ => .floatK
  | .str _ => .stringK
  | .list _ => .noFn
  | .map _ => .noFn
  | .null => .noFn
  | .undefined => .noFn

/-- `CoerceBool(fmt.Sprintf("%v", v))` with the error discarded, as the
primitive comparison functions use it: the string branch of `CoerceBool`
never errors (`ParseBool` falling back to the non-empty test). -/
def coerceBoolSprintf (v : GoValue) : Bool :=
  (parseBoolGo (sprintfV v)).getD (!(sprintfV v).isEmpty)

/-- `CoerceInt64(fmt.Sprintf("%v", v))` with the error discarded: syntax
errors leave `0`, range errors the clamped boundary. -/
def coerceInt64Sprintf (v : GoValue) : Int :=
  match parseInt64Go (sprintfV v) with
  | .ok n => n
  | .errv n _ => n
  | .panic _ => 0

/-- `CoerceFloat64(fmt.Sprintf("%v", v))` with the error discarded. -/
def coerceFloat64Sprintf (v : GoValue) : Rat :=
  match parseFloatGo (sprintfV v) with
  | .ok q => q
  | .errv q _ => q
  | .panic _ => 0

/-- `doEqualBool`: coerce both sides through Sprintf to bool and compare. -/
def doEqualBool (first second : GoValue) : Bool :=
  coerceBoolSprintf first == coerceBoolSprintf second

/-- `doEqualInt64`. -/
def doEqualInt64 (first second : GoValue) : Bool :=
  coerceInt64Sprintf first == coerceInt64Sprintf second

/-- `doEqualFloat64`. -/
def doEqualFloat64 (first second : GoValue) : Bool :=
  coerceFloat64Sprintf first == coerceFloat64Sprintf second

/-- `doEqualString`: compare the `%v` renderings. -/
def doEqualString (first second : GoValue) : Bool :=
  sprintfV first == sprintfV second

/-- `doLowerBool`: `b1 && !b2`. -/
def doLowerBool (first second : GoValue) : Bool :=
  coerceBoolSprintf first && !coerceBoolSprintf second

/-- `doLowerInt64`: `<` on the coerced int64s. -/
def doLowerInt64 (first second : GoValue) : Bool :=
  coerceInt64Sprintf first < coerceInt64Sprintf second

/-- `doLowerFloat64`: `<` on the coerced float64s. -/
def doLowerFloat64 (first second : GoValue) : Bool :=
  coerceFloat64Sprintf first < coerceFloat64Sprintf second

/-- `doLowerString`: `strings.HasPrefix(b2, b1)` — the second string starts
with the first. -/
def doLowerString (first second : GoValue) : Bool :=
  strStartsWith (sprintfV second) (sprintfV first)

/-- Apply the equality function selected by a `PrimKind` (`noFn` is never
applied; callers check for it first). -/
def primEqApply (k : PrimKind) (first second : GoValue) : Bool :=
  match k with
  | .boolK => doEqualBool first second
  | .intK => doEqualInt64 first second
  | .floatK => doEqualFloat64 first second
  | .stringK => doEqualString first second
  | .noFn => false

/-- Apply the lower function selected by a `PrimKind`. -/
def primLowerApply (k : PrimKind) (first second : GoValue) : Bool :=
  match k with
  | .boolK => doLowerBool first second
  | .intK => doLowerInt64 first second
  | .floatK => doLowerFloat64 first second
  | .stringK => doLowerString first second
  | .noFn => false

/-- `doMatchEqual`: pick the equality function off the left value's kind;
no function means the comparison error (with `false` beside it). -/
def doMatchEqual (leftValue rightValue : GoValue) : Res Bool :=
  match primKind leftValue with
  | .noFn => .errv false ("unable to find suitable primitive comparison function for matching " ++ goTypeName leftValue ++ " and " ++ goTypeName rightValue)
  | k => .ok (primEqApply k leftValue rightValue)

/-- `doMatchLower`: pick the lower function off the left value's kind. -/
def doMatchLower (leftValue rightValue : GoValue) : Res Bool :=
  match primKind leftValue with
  | .noFn => .errv false ("unable to find suitable primitive comparison function for matching " ++ goTypeName leftValue ++ " and " ++ goTypeName rightValue)
  | k => .ok (primLowerApply k leftValue rightValue)

/-- The element loop of `doMatchIn` on a slice.  Our `GoValue` slices model
`[]interface{}` (the JSON-like datum shape), so this is the interface-element
branch: the equality function is rederived from the right value for each
element, the nil-function error fires inside the loop (an empty slice never
errors), and a hit returns true.  The concrete-element branch of the source
differs only in checking for a nil function before the loop and in its error
message. -/
def doMatchInLoop (items : List GoValue) (rightValue : GoValue) : Res Bool :=
  match items with
  | [] => .ok false
  | item :: rest =>
    match primKind rightValue with
    | .noFn => .errv false ("unable to find suitable primitive comparison function for \"in\" comparison in interface slice: " ++ goKindName item)
    | k => if primEqApply k item rightValue then .ok true else doMatchInLoop rest rightValue

/-- `doMatchIn`: dispatch off the left (container) value's kind — map
membership tests the key (a non-string key against our string-keyed maps is
the `reflect.Value.MapIndex` panic), slice membership walks the elements, a
string container tests substring containment of the right value (a
non-string right value is a failed type assertion), and anything else is the
in/contains type error. -/
def doMatchIn (leftValue rightValue : GoValue) : Res Bool :=
  match leftValue with
  | .map ps =>
    match rightValue with
    | .str k => .ok (ps.lookup k).isSome
    | _ => .panic ("reflect.Value.MapIndex: value of type " ++ goTypeName rightValue ++ " is not assignable to type string")
  | .list xs => doMatchInLoop xs rightValue
  | .str s =>
    match rightValue with
    | .str sub => .ok (strContains s sub)
    | _ => .panic ("interface conversion: interface \x7b\x7d is " ++ goTypeName rightValue ++ ", not string")
  | v => .errv false ("Cannot perform in/contains operations on type " ++ goKindName v)

/-- `doMatchIsEmpty`: `reflect.Indirect(reflect.ValueOf(v)).Len() == 0`.
`Len` is only defined for strings, slices, arrays, maps and channels; on any
other kind `reflect` panics.  (The dereferenced `UndefinedType` sentinel is a
struct and the nil interface is the zero `reflect.Value`; both panic too.) -/
def doMatchIsEmpty (leftValue : GoValue) : Res Bool :=
  match leftValue with
  | .str s => .ok (s.length == 0)
  | .list xs => .ok (xs.length == 0)
  | .map ps => .ok (ps.length == 0)
  | .null => .panic "reflect: call of reflect.Value.Len on zero Value"
  | .undefined => .panic "reflect: call of reflect.Value.Len on struct Value"
  | v => .panic ("reflect: call of reflect.Value.Len on " ++ goKindName v ++ " Value")

/-- `doMatchMatches`: the left value must be convertible to `[]byte` (among
our value kinds, only strings are), and the right value is type-asserted to
string and compiled as a regular expression.  Go's RE2 matching itself is
outside this embedding and is abstracted here as literal substring
containment of the pattern, with compilation always succeeding; no claim
exercises regex semantics (the one claim touching `Matches` returns before
reaching this function). -/
def doMatchMatches (leftValue rightValue : GoValue) : Res Bool :=
  match leftValue with
  | .str s =>
    match rightValue with
    | .str pat => .ok (strContains s pat)
    | _ => .panic ("interface conversion: interface \x7b\x7d is " ++ goTypeName rightValue ++ ", not string")
  | v => .errv false ("Value of type " ++ goTypeName v ++ " is not convertible to []byte")

/-- `isUndefined`: the value is a pointer to the `UndefinedType` struct. -/
def isUndefined (v : GoValue) : Bool :=
  match v with
  | .undefined => true
  | _ => false

/-- `getValue`: evaluate one `MatchValue` leaf.  The `Undefined` literal is
the sentinel; `Bool`/`Int`/`Float64` literals go through the coercers
(carrying the coercer's value beside any error, as the source does); a
`Reflect` value resolves the selector against the datum with the default
options (no tag name, no hook, no unknown-value substitute — the
configuration no claim alters), applying the absence policy on the dedicated
not-found error; every other declared type yields the raw text.  (The
`json.Number` renormalization of resolved values is not modelled: our datums
never contain one.) -/
def getValue (mv : MatchValue) (datum : GoValue) : Res GoValue :=
  match mv.type_ with
  | .undefined => .ok .undefined
  | .bool =>
    match coerceBool (.str mv.raw) with
    | .ok b => .ok (.bool b)
    | .errv b m => .errv (.bool b) m
    | .panic m => .panic m
  | .int =>
    match coerceInt64 (.str mv.raw) with
    | .ok n => .ok (.int n)
    | .errv n m => .errv (.int n) m
    | .panic m => .panic m
  | .float64 =>
    match coerceFloat64 (.str mv.raw) with
    | .ok q => .ok (.float q)
    | .errv q m => .errv (.float q) m
    | .panic m => .panic m
  | .reflect =>
    match ptrGet mv.selector.path datum with
    | .ok v => .ok v
    | .error .notFound =>
      if evaluateNotPresent mv.selector.path datum then .ok .undefined
      else .errv .undefined "error finding value in datum: couldn't find key: struct field with name not found"
    | .error (.other m) => .errv .undefined ("error finding value in datum: " ++ m)
  | _ => .ok (.str mv.raw)

/-- Wrap an `Int` into the int64 range, two's-complement style, as Go
arithmetic on int64 does on overflow. -/
def wrap64 (x : Int) : Int :=
  (x + 2 ^ 63) % 2 ^ 64 - 2 ^ 63

/-- The math-operator switch of `getExprValue`, applied once both operands
are evaluated: identity returns the left value untouched; the four
arithmetic operators dispatch on the right value's dynamic type
(type-asserting the left value, which panics when it has a different type),
`+` meaning logical and on bools, addition on int64 and float64 and
concatenation on strings, and `-`, `*`, `/` the int64/float64 arithmetic
(int64 division truncates and panics on a zero divisor); any other right
type is the unknown-types math error with a nil value beside it. -/
def applyMathOp (op : MathOperator) (lvalue rvalue : GoValue) : Res GoValue :=
  match op with
  | .value => .ok lvalue
  | .plus =>
    match rvalue with
    | .bool b =>
      match lvalue with
      | .bool a => .ok (.bool (a && b))
      | _ => .panic ("interface conversion: interface \x7b\x7d is " ++ goTypeName lvalue ++ ", not bool")
    | .int n =>
      match lvalue with
      | .int m => .ok (.int (wrap64 (m + n)))
      | _ => .panic ("interface conversion: interface \x7b\x7d is " ++ goTypeName lvalue ++ ", not int64")
    | .float q =>
      match lvalue with
      | .float p => .ok (.float (p + q))
      | _ => .panic ("interface conversion: interface \x7b\x7d is " ++ goTypeName lvalue ++ ", not float64")
    | .str s =>
      match lvalue with
      | .str t => .ok (.str (t ++ s))
      | _ => .panic ("interface conversion: interface \x7b\x7d is " ++ goTypeName lvalue ++ ", not string")
    | _ => .errv .null ("unknown types " ++ goTypeName rvalue ++ " for math op")
  | .minus =>
    match rvalue with
    | .int n =>
      match lvalue with
      | .int m => .ok (.int (wrap64 (m - n)))
      | _ => .panic ("interface conversion: interface \x7b\x7d is " ++ goTypeName lvalue ++ ", not int64")
    | .float q =>
      match lvalue with
      | .float p => .ok (.float (p - q))
      | _ => .panic ("interface conversion: interface \x7b\x7d is " ++ goTypeName lvalue ++ ", not float64")
    | _ => .errv .null ("unknown types " ++ goTypeName rvalue ++ " for math op")
  | .mul =>
    match rvalue with
    | .int n =>
      match lvalue with
      | .int m => .ok (.int (wrap64 (m * n)))
      | _ => .panic ("interface conversion: interface \x7b\x7d is " ++ goTypeName lvalue ++ ", not int64")
    | .float q =>
      match lvalue with
      | .float p => .ok (.float (p * q))
      | _ => .panic ("interface conversion: interface \x7b\x7d is " ++ goTypeName lvalue ++ ", not float64")
    | _ => .errv .null ("unknown types " ++ goTypeName rvalue ++ " for math op")
  | .div =>
    match rvalue with
    | .int n =>
      match lvalue with
      | .int m =>
        if n == 0 then .panic "runtime error: integer divide by zero"
        else .ok (.int (wrap64 (Int.tdiv m n)))
      | _ => .panic ("interface conversion: interface \x7b\x7d is " ++ goTypeName lvalue ++ ", not int64")
    | .float q =>
      match lvalue with
      | .float p => .ok (.float (p / q))
      | _ => .panic ("interface conversion: interface \x7b\x7d is " ++ goTypeName lvalue ++ ", not float64")
    | _ => .errv .null ("unknown types " ++ goTypeName rvalue ++ " for math op")

mutual

/-- `getExprValue` on a non-nil `*ExpressionValue`: evaluate the left
operand (returning its value beside any error, as the source does), then the
right operand when the `Right` slot is non-nil (the right value otherwise
staying the nil interface), then apply the math-operator switch. -/
def getExprValueCore (ev : ExpressionValue) (datum : GoValue) : Res GoValue :=
  match ev with
  | .mk l op r =>
    match evalOperand l datum with
    | .panic m => .panic m
    | .errv v m => .errv v m
    | .ok lvalue =>
      match (match r with
        | .nil_ => Res.ok GoValue.null
        | o => evalOperand o datum) with
      | .panic m => .panic m
      | .errv v m => .errv v m
      | .ok rvalue => applyMathOp op lvalue rvalue

/-- Dispatch of `evaluate` on an `interface{}` operand slot: a `*MatchValue`
goes to `getValue`, a `*ExpressionValue` recurses, and a nil slot is never
evaluated by the source (the guards in `getExprValue` and
`evaluateMatchExpression` skip it); `evaluate` on nil would fall through to
the invalid-AST error. -/
def evalOperand (o : Operand) (datum : GoValue) : Res GoValue :=
  match o with
  | .val mv => getValue mv datum
  | .expr e => getExprValueCore e datum
  | .nil_ => .errv (.bool false) "Invalid AST node"

end

/-- `getExprValue` including the nil-pointer guard: a nil expression is
`(nil, nil)`. -/
def getExprValue : Option ExpressionValue → GoValue → Res GoValue
  | none, _ => .ok .null
  | some ev, datum => getExprValueCore ev datum

/-- The operator switch of `evaluateMatchExpression`, once both sides are
evaluated and the left side is not the sentinel: dispatch exactly as the
source does — in particular `Higher` falls back from a failed or false
lower test to the equality test and returns `(true, err)` when that errors
too, `LowerOrEqual` returns an equality hit directly and otherwise defers
to the lower test, and `HigherOrEqual` negates a successful lower test but
returns `(true, nil)` — discarding the error — when the lower test fails;
the negated operators return `(false, err)` when their base test errors. -/
def matchOpDispatch (op : MatchOperator) (leftValue rightValue : GoValue) : Res Bool :=
  match op with
  | .lower => doMatchLower leftValue rightValue
  | .higher =>
    match doMatchLower leftValue rightValue with
    | .panic s => .panic s
    | .ok true => .ok false
    | _ =>
      match doMatchEqual leftValue rightValue with
      | .panic s => .panic s
      | .ok res => .ok !res
      | .errv _ msg => .errv true msg
  | .lowerOrEqual =>
    match doMatchEqual leftValue rightValue with
    | .panic s => .panic s
    | .ok true => .ok true
    | _ => doMatchLower leftValue rightValue
  | .higherOrEqual =>
    match doMatchLower leftValue rightValue with
    | .panic s => .panic s
    | .ok res => .ok !res
    | .errv _ _ => .ok true
  | .equal => doMatchEqual leftValue rightValue
  | .notEqual =>
    match doMatchEqual leftValue rightValue with
    | .panic s => .panic s
    | .ok res => .ok !res
    | .errv _ msg => .errv false msg
  | .inOp => doMatchIn leftValue rightValue
  | .notIn =>
    match doMatchIn leftValue rightValue with
    | .panic s => .panic s
    | .ok res => .ok !res
    | .errv _ msg => .errv false msg
  | .isEmpty => doMatchIsEmpty leftValue
  | .isNotEmpty =>
    match doMatchIsEmpty leftValue with
    | .panic s => .panic s
    | .ok res => .ok !res
    | .errv _ msg => .errv false msg
  | .matches => doMatchMatches leftValue rightValue
  | .notMatches =>
    match doMatchMatches leftValue rightValue with
    | .panic s => .panic s
    | .ok res => .ok !res
    | .errv _ msg => .errv false msg

/-- `evaluateMatchExpression`: evaluate the left side (an error returns
`(false, err)`); the `Undefined` sentinel returns the operator's
not-present disposition with no error, before the right side is touched;
otherwise evaluate the right side (nil yields the nil interface) and run
the operator switch. -/
def evaluateMatchExpression (m : MatchExpression) (datum : GoValue) : Res Bool :=
  match getExprValue (some m.left) datum with
  | .panic s => .panic s
  | .errv _ msg => .errv false msg
  | .ok leftValue =>
    if isUndefined leftValue then .ok m.operator.notPresentDisposition
    else
      match getExprValue m.right datum with
      | .panic s => .panic s
      | .errv _ msg => .errv false msg
      | .ok rightValue => matchOpDispatch m.operator leftValue rightValue

/-- Lift a `(bool, error)` result into the `interface{}` result channel of
`evaluate`. -/
def liftBoolRes : Res Bool → Res GoValue
  | .ok b => .ok (.bool b)
  | .errv b m => .errv (.bool b) m
  | .panic m => .panic m

/-- `evaluate`: dispatch on the AST node.  `Not` evaluates the operand and
negates its boolean (the type assertion `result.(bool)` runs even beside an
error and panics on a non-bool); `And`/`Or` evaluate the left child and
return it as-is on an error, a false (`And`) or a true (`Or`) — without
evaluating the right child — and otherwise return the right child's result
(a non-bool, error-free left result fails the assertion); match
expressions, expression values and match values go to their evaluators. -/
def evaluate : Expression → GoValue → Res GoValue
  | .unary .notOp operand, datum =>
    match evaluate operand datum with
    | .panic m => .panic m
    | .ok (.bool b) => .ok (.bool !b)
    | .errv (.bool b) m => .errv (.bool !b) m
    | .ok v => .panic ("interface conversion: interface \x7b\x7d is " ++ goTypeName v ++ ", not bool")
    | .errv v _ => .panic ("interface conversion: interface \x7b\x7d is " ++ goTypeName v ++ ", not bool")
  | .binary .and l r, datum =>
    match evaluate l datum with
    | .panic m => .panic m
    | .errv v m => .errv v m
    | .ok (.bool false) => .ok (.bool false)
    | .ok (.bool true) => evaluate r datum
    | .ok v => .panic ("interface conversion: interface \x7b\x7d is " ++ goTypeName v ++ ", not bool")
  | .binary .or l r, datum =>
    match evaluate l datum with
    | .panic m => .panic m
    | .errv v m => .errv v m
    | .ok (.bool true) => .ok (.bool true)
    | .ok (.bool false) => evaluate r datum
    | .ok v => .panic ("interface conversion: interface \x7b\x7d is " ++ goTypeName v ++ ", not bool")
  | .matchExpr m, datum => liftBoolRes (evaluateMatchExpression m datum)
  | .exprValue e, datum => getExprValue (some e) datum
  | .matchValue mv, datum => getValue mv datum

/-- `MathOperator.String()` from the AST file. -/
def MathOperator.goString : MathOperator → String
  | .value => "="
  | .plus => "+"
  | .minus => "-"
  | .mul => "*"
  | .div => "/"

/-- Go fmt's `%v` of the `Converted` slot: a nil interface prints `<nil>`. -/
def fmtConverted : Option GoValue → String
  | none => "<nil>"
  | some v => sprintfV v

/-- Go fmt's `%v` of a `*MatchValue`: a pointer to a struct prints `&` and
the fields space-separated; the `Selector` field is rendered through its
`String()` method, the `ValueType` field as its numeric value, the raw text
verbatim, and the `Converted` interface. -/
def fmtVMatchValue (mv : MatchValue) : String :=
  "&\x7b" ++ mv.selector.render ++ " " ++ toString mv.type_.num ++ " " ++ mv.raw ++ " " ++ fmtConverted mv.converted ++ "\x7d"

mutual

/-- Go fmt's `%v` of an `interface{}` operand slot (`*MatchValue`,
`*ExpressionValue` or nil). -/
def fmtVOperand : Operand → String
  | .val mv => fmtVMatchValue mv
  | .expr e => fmtVExpressionValue e
  | .nil_ => "<nil>"

/-- Go fmt's `%v` of a `*ExpressionValue`: the two operand slots and the
`MathOperator` field through its `String()` method. -/
def fmtVExpressionValue : ExpressionValue → String
  | .mk l op r => "&\x7b" ++ fmtVOperand l ++ " " ++ op.goString ++ " " ++ fmtVOperand r ++ "\x7d"

end

/-- Go fmt's `%q` of an `interface{}` operand slot: `%q` has no meaning for
these types, so fmt prints its bad-verb form — `%!q(<nil>)` for a nil
interface, `%!q(TYPE=VALUE)` otherwise. -/
def fmtQOperand : Operand → String
  | .nil_ => "%!q(<nil>)"
  | .val mv => "%!q(*grammar.MatchValue=" ++ fmtVMatchValue mv ++ ")"
  | .expr e => "%!q(*grammar.ExpressionValue=" ++ fmtVExpressionValue e ++ ")"

/-- The operators the `MatchExpression` dump treats as binary: the switch in
the AST file lists exactly these eight (notably `Matches` and `NotMatches`
fall to the selector-only default). -/
def MatchOperator.isDumpBinary : MatchOperator → Bool
  | .equal => true
  | .notEqual => true
  | .inOp => true
  | .notIn => true
  | .lower => true
  | .higher => true
  | .lowerOrEqual => true
  | .higherOrEqual => true
  | _ => false

/-- `MatchExpression.ExpressionDump`: for the eight binary operators,
`"<OP> {\n<ind>Selector: <%v of Left.Left>\n<ind>Value: <%q of Right.Right>\n}\n"`
(dereferencing `Right`, which panics when it is nil); for every other
operator the selector-only form.  Indentation repeats the indent unit
`level` (outer) and `level+1` (inner) times. -/
def matchExpressionDump (m : MatchExpression) (indent : String) (level : Nat) : Res String :=
  if m.operator.isDumpBinary then
    match m.right with
    | none => .panic "runtime error: invalid memory address or nil pointer dereference"
    | some r =>
      .ok (strRepeat indent level ++ m.operator.goString ++ " \x7b\n"
        ++ strRepeat indent (level + 1) ++ "Selector: " ++ fmtVOperand m.left.left ++ "\n"
        ++ strRepeat indent (level + 1) ++ "Value: " ++ fmtQOperand r.right ++ "\n"
        ++ strRepeat indent level ++ "\x7d\n")
  else
    .ok (strRepeat indent level ++ m.operator.goString ++ " \x7b\n"
      ++ strRepeat indent (level + 1) ++ "Selector: " ++ fmtVOperand m.left.left ++ "\n"
      ++ strRepeat indent level ++ "\x7d\n")

/-- The absence-value column of the spec's §3 operator table, written from
the spec's words (not from the source) for comparison with the source's
`NotPresentDisposition`. -/
def specAbsenceValue : MatchOperator → Bool
  | .equal => false
  | .notEqual => true
  | .inOp => false
  | .notIn => true
  | .isEmpty => true
  | .isNotEmpty => false
  | .matches => false
  | .notMatches => true
  | .lower => true
  | .lowerOrEqual => true
  | .higher => false
  | .higherOrEqual => false

/-- Which right-operand dynamic types each math operator accepts, per the
spec's §4.5.2 table: `+` on bool, int64, float64 and string; `-`, `*`, `/`
on int64 and float64 only; identity accepts anything. -/
def mathOpSupports : MathOperator → GoValue → Bool
  | .value, _ => true
  | .plus, .bool _ => true
  | .plus, .int _ => true
  | .plus, .float _ => true
  | .plus, .str _ => true
  | .plus, _ => false
  | _, .int _ => true
  | _, .float _ => true
  | _, _ => false

/-- No node in the expression has a `Not` directly inside a `Not`. -/
def notNotFree : Expression → Bool
  | .unary .notOp (.unary .notOp _) => false
  | .unary .notOp e => notNotFree e
  | .binary _ l r => notNotFree l && notNotFree r
  | _ => true

/-- Reduction lemma: a left side evaluating to the sentinel short-circuits
the match evaluation to the operator's disposition. -/
theorem evalMatch_undefined_left (m : MatchExpression) (datum : GoValue)
    (h : getExprValue (some m.left) datum = .ok .undefined) :
    evaluateMatchExpression m datum = .ok m.operator.notPresentDisposition := by
  unfold evaluateMatchExpression
  rw [h]
  rfl

/-- Reduction lemma: when both sides evaluate cleanly and the left side is
not the sentinel, the match evaluation is the operator switch. -/
theorem evalMatch_both_ok (m : MatchExpression) (datum lv rv : GoValue)
    (hl : getExprValue (some m.left) datum = .ok lv)
    (hnu : isUndefined lv = false)
    (hr : getExprValue m.right datum = .ok rv) :
    evaluateMatchExpression m datum = matchOpDispatch m.operator lv rv := by
  unfold evaluateMatchExpression
  rw [hl]
  simp [hnu, hr]

/-- Sample: the selector `foo.bar` as a `Reflect` match value, as the
grammar's `Value` production builds it. -/
def fooBarSelector : MatchValue := ⟨⟨.bexpr, ["foo", "bar"]⟩, .reflect, "", none⟩

/-- Sample: the string literal `"baz"`. -/
def bazLiteral : MatchValue := ⟨⟨.unknown, []⟩, .string, "baz", none⟩

/-- Sample: the parser-shaped AST of `foo.bar == "baz"` — each side is an
identity `ExpressionValue` wrapping its `MatchValue`. -/
def fooBarEqualBaz : MatchExpression :=
  ⟨.equal, .mk (.val fooBarSelector) .value .nil_, some (.mk (.val bazLiteral) .value .nil_)⟩

/-- C1: whenever the left side of a match expression resolves to the
`Undefined` sentinel, `evaluateMatchExpression` returns exactly the absence
value listed in the spec's §3 table for its operator (Equal false, NotEqual
true, In false, NotIn true, IsEmpty true, IsNotEmpty false, Matches false,
NotMatches true, Lower true, LowerOrEqual true, Higher false, HigherOrEqual
false), with no error and for every right-hand side — the result is fixed
before the right side is touched, so the right side is never evaluated.
Moreover the resolver produces the sentinel exactly in the claimed
situation: a not-found failure on a path whose parent (the path without its
missing leaf key, of length at least 1, so the path has length at least 2)
resolves to a map. -/
theorem C1_absence_disposition_matches_spec_table :
    (∀ (m : MatchExpression) (datum : GoValue),
        getExprValue (some m.left) datum = .ok .undefined →
        evaluateMatchExpression m datum = .ok (specAbsenceValue m.operator))
  ∧ (∀ (sel : Selector) (raw : String) (conv : Option GoValue) (datum : GoValue),
        ptrGet sel.path datum = .error .notFound →
        evaluateNotPresent sel.path datum = true →
        getValue ⟨sel, .reflect, raw, conv⟩ datum = .ok .undefined) := by
  constructor
  · intro m datum h
    rw [evalMatch_undefined_left m datum h]
    rcases m with ⟨op, l, r⟩
    cases op <;> rfl
  · intro sel raw conv datum hnf hnp
    unfold getValue
    rw [hnf, hnp]
    simp

/-- C1 witness: `foo.bar == "baz"` against `{ foo: {} }` — the leaf `bar`
is missing, the path has length 2, its parent is a map, so the left side
resolves to the sentinel and evaluation yields `Equal`'s absence value
`false` with no error. -/
theorem C1_absence_disposition_witness :
    (getValue fooBarSelector (.map [("foo", .map [])]) = .ok .undefined
      ∧ getExprValue (some fooBarEqualBaz.left) (.map [("foo", .map [])]) = .ok .undefined
      ∧ evaluateMatchExpression fooBarEqualBaz (.map [("foo", .map [])]) = .ok (specAbsenceValue .equal))
  ∧ (ptrGet fooBarSelector.selector.path (.map [("foo", .map [])]) = .error .notFound
      ∧ evaluateNotPresent fooBarSelector.selector.path (.map [("foo", .map [])]) = true) :=
  ⟨⟨C1_absence_disposition_matches_spec_table.2 fooBarSelector.selector "" none _ rfl rfl,
    rfl,
    C1_absence_disposition_matches_spec_table.1 fooBarEqualBaz _ rfl⟩,
   rfl, rfl⟩

/-- Sample: the selector `a` as a `Reflect` match value. -/
def aSelector : MatchValue := ⟨⟨.bexpr, ["a"]⟩, .reflect, "", none⟩

/-- Sample: the integer literal `3`. -/
def threeLiteral : MatchValue := ⟨⟨.unknown, []⟩, .int, "3", none⟩

/-- Sample: the parser-shaped AST of `a >= 3`. -/
def aHigherOrEqualThree : MatchExpression :=
  ⟨.higherOrEqual, .mk (.val aSelector) .value .nil_, some (.mk (.val threeLiteral) .value .nil_)⟩

/-- Sample: the datum `{ a: [1] }`, whose field `a` is a slice — a kind with
no primitive comparison function. -/
def sliceDatum : GoValue := .map [("a", .list [.int 1])]

/-- C2 counterexample: evaluating `a >= 3` against `{ a: [1] }` — the left
value is a slice, so `doMatchLower` reports the
no-suitable-primitive-comparison error, yet `evaluateMatchExpression`
returns `(true, nil)`: a successful boolean result with the error
discarded, not the surfaced error the claim requires. -/
theorem C2_counterexample_error_swallowed :
    doMatchLower (.list [.int 1]) (.int 3)
      = .errv false ("unable to find suitable primitive comparison function for matching "
          ++ goTypeName (.list [.int 1]) ++ " and " ++ goTypeName (.int 3))
  ∧ evaluateMatchExpression aHigherOrEqualThree sliceDatum = .ok true :=
  ⟨rfl, rfl⟩

/-- C2 amended: for a `HigherOrEqual` match whose operands admit no suitable
primitive comparison function (the left value's runtime kind is not bool, an
integer kind, a float kind, or string), evaluation does **not** surface the
comparison error: the error from the lower test is discarded and the result
is `(true, nil)`. -/
theorem C2_higherOrEqual_swallows_comparison_error
    (m : MatchExpression) (datum lv rv : GoValue)
    (hop : m.operator = .higherOrEqual)
    (hl : getExprValue (some m.left) datum = .ok lv)
    (hnu : isUndefined lv = false)
    (hr : getExprValue m.right datum = .ok rv)
    (hk : primKind lv = .noFn) :
    evaluateMatchExpression m datum = .ok true := by
  rw [evalMatch_both_ok m datum lv rv hl hnu hr, hop]
  unfold matchOpDispatch doMatchLower
  rw [hk]

/-- C2 witness for the amended claim: `a >= 3` against `{ a: [1] }`. -/
theorem C2_higherOrEqual_swallows_witness :
    aHigherOrEqualThree.operator = .higherOrEqual
  ∧ getExprValue (some aHigherOrEqualThree.left) sliceDatum = .ok (.list [.int 1])
  ∧ isUndefined (.list [.int 1]) = false
  ∧ getExprValue aHigherOrEqualThree.right sliceDatum = .ok (.int 3)
  ∧ primKind (.list [.int 1]) = .noFn
  ∧ evaluateMatchExpression aHigherOrEqualThree sliceDatum = .ok true :=
  ⟨rfl, rfl, rfl, rfl, rfl,
   C2_higherOrEqual_swallows_comparison_error aHigherOrEqualThree sliceDatum _ _ rfl rfl rfl rfl rfl⟩

/-- Sample: the selector `tags` as a `Reflect` match value. -/
def tagsSelector : MatchValue := ⟨⟨.bexpr, ["tags"]⟩, .reflect, "", none⟩

/-- Sample: the string literal `"a"`. -/
def aLiteral : MatchValue := ⟨⟨.unknown, []⟩, .string, "a", none⟩

/-- Sample: the parser-shaped AST of `"a" in tags`, built by the
`MatchValueOpSelector` action: the selector lands on the left, the literal
on the right. -/
def aInTags : MatchExpression := matchValueOpSelectorAction .inOp aLiteral tagsSelector

/-- Sample: the datum `{ tags: ["x", "a", "y"] }`. -/
def tagsListDatum : GoValue := .map [("tags", .list [.str "x", .str "a", .str "y"])]

/-- Sample: the datum `{ tags: "banana" }`. -/
def tagsBananaDatum : GoValue := .map [("tags", .str "banana")]

/-- C3 counterexample: evaluating `"a" in tags` against `{ tags: "banana" }`
returns `true`, not the `false` the claim asserts — the membership test on a
string container is substring containment of the literal inside the resolved
string, and `"a"` does occur inside `"banana"`. -/
theorem C3_counterexample_banana_contains_a :
    evaluateMatchExpression aInTags tagsBananaDatum = .ok true
  ∧ evaluateMatchExpression aInTags tagsBananaDatum ≠ .ok false := by
  constructor
  · rfl
  · decide

/-- C3 amended: `"a" in tags` evaluates to `true` against
`{ tags: ["x","a","y"] }` **and** to `true` (not `false`) against
`{ tags: "banana" }`; when the resolved container is a string, membership is
substring containment of the (string) literal inside the resolved string;
and the `value in selector` surface syntax places the selector on the match
expression's left and the literal on its right. -/
theorem C3_in_operator_semantics :
    evaluateMatchExpression aInTags tagsListDatum = .ok true
  ∧ evaluateMatchExpression aInTags tagsBananaDatum = .ok true
  ∧ (∀ s lit : String, doMatchIn (.str s) (.str lit) = .ok (strContains s lit))
  ∧ (∀ (op : MatchOperator) (value selector : MatchValue),
        matchValueOpSelectorAction op value selector
          = ⟨op, .mk (.val selector) .value .nil_, some (.mk (.val value) .value .nil_)⟩) :=
  ⟨rfl, rfl, fun _ _ => rfl, fun _ _ _ => rfl⟩

/-- C4: with the AST shape the parser produces for `foo.bar == "baz"` (each
side an identity `ExpressionValue` wrapping its `MatchValue`), the dump with
indent three spaces and level 0 does **not** produce the text the claim and
the repository's own `TestAST_Dump` expect: the `Selector:` slot formats
`Left.Left` — the `*MatchValue` — with `%v`, printing the whole struct
`&\x7bfoo.bar 7  <nil>\x7d` instead of `foo.bar`, and the `Value:` slot
formats `Right.Right` — which is nil in the parser's shape, the raw text
living in `Right.Left` — with `%q`, printing the bad-verb form
`%!q(<nil>)` instead of `"baz"`. -/
theorem C4_dump_diverges_from_test :
    matchExpressionDump fooBarEqualBaz "   " 0
      = .ok "Equal \x7b\n   Selector: &\x7bfoo.bar 7  <nil>\x7d\n   Value: %!q(<nil>)\n\x7d\n"
  ∧ matchExpressionDump fooBarEqualBaz "   " 0
      ≠ .ok "Equal \x7b\n   Selector: foo.bar\n   Value: \"baz\"\n\x7d\n" := by
  constructor
  · rfl
  · decide

/-- C5: arithmetic evaluation of an `ExpressionValue` — the identity
operator `=` returns the left operand's evaluation untouched (no kind
dispatch, errors included); for `+`, `-`, `*`, `/` the dispatch is keyed
off the right value's dynamic kind: `+` is logical and on bools, addition
on int64 (wrapping) and float64, concatenation on strings; `-`, `*`, `/`
are int64/float64 arithmetic only (int64 division truncating, stated here
for a nonzero divisor since Go panics on zero); and every right kind a
given operator does not support yields the `unknown types … for math op`
error. -/
theorem C5_math_op_dispatch :
    (∀ (l : Operand) (datum : GoValue),
        getExprValue (some (.mk l .value .nil_)) datum = evalOperand l datum)
  ∧ (∀ l r : GoValue, applyMathOp .value l r = .ok l)
  ∧ (∀ a b : Bool, applyMathOp .plus (.bool a) (.bool b) = .ok (.bool (a && b)))
  ∧ (∀ m n : Int, applyMathOp .plus (.int m) (.int n) = .ok (.int (wrap64 (m + n))))
  ∧ (∀ p q : Rat, applyMathOp .plus (.float p) (.float q) = .ok (.float (p + q)))
  ∧ (∀ s t : String, applyMathOp .plus (.str s) (.str t) = .ok (.str (s ++ t)))
  ∧ (∀ m n : Int, applyMathOp .minus (.int m) (.int n) = .ok (.int (wrap64 (m - n))))
  ∧ (∀ p q : Rat, applyMathOp .minus (.float p) (.float q) = .ok (.float (p - q)))
  ∧ (∀ m n : Int, applyMathOp .mul (.int m) (.int n) = .ok (.int (wrap64 (m * n))))
  ∧ (∀ p q : Rat, applyMathOp .mul (.float p) (.float q) = .ok (.float (p * q)))
  ∧ (∀ m n : Int, n ≠ 0 → applyMathOp .div (.int m) (.int n) = .ok (.int (wrap64 (Int.tdiv m n))))
  ∧ (∀ p q : Rat, applyMathOp .div (.float p) (.float q) = .ok (.float (p / q)))
  ∧ (∀ (op : MathOperator) (l r : GoValue), op ≠ .value → mathOpSupports op r = false →
        applyMathOp op l r = .errv .null ("unknown types " ++ goTypeName r ++ " for math op")) := by
  refine ⟨?_, fun _ _ => rfl, fun _ _ => rfl, fun _ _ => rfl, fun _ _ => rfl, fun _ _ => rfl,
    fun _ _ => rfl, fun _ _ => rfl, fun _ _ => rfl, fun _ _ => rfl, ?_, fun _ _ => rfl, ?_⟩
  · intro l datum
    cases h : evalOperand l datum <;> simp [getExprValue, getExprValueCore, h, applyMathOp]
  · intro m n hn
    have hb : (n == 0) = false := beq_eq_false_iff_ne.mpr hn
    simp [applyMathOp, hb]
  · intro op l r hop hsup
    cases op with
    | value => exact absurd rfl hop
    | plus => cases r <;> first | rfl | simp [mathOpSupports] at hsup
    | minus => cases r <;> first | rfl | simp [mathOpSupports] at hsup
    | mul => cases r <;> first | rfl | simp [mathOpSupports] at hsup
    | div => cases r <;> first | rfl | simp [mathOpSupports] at hsup

/-- C5 witness: truncating division `7 / 2 = 3`, and `-` applied to a
string right operand is the unknown-types math error. -/
theorem C5_math_op_dispatch_witness :
    ((2 : Int) ≠ 0 ∧ applyMathOp .div (.int 7) (.int 2) = .ok (.int (wrap64 (Int.tdiv 7 2))))
  ∧ (MathOperator.minus ≠ .value ∧ mathOpSupports .minus (.str "x") = false
      ∧ applyMathOp .minus (.bool true) (.str "x")
          = .errv .null ("unknown types " ++ goTypeName (.str "x") ++ " for math op")) := by
  have h := C5_math_op_dispatch
  exact ⟨⟨by decide, h.2.2.2.2.2.2.2.2.2.2.1 7 2 (by decide)⟩,
    ⟨by decide, rfl, h.2.2.2.2.2.2.2.2.2.2.2.2 .minus (.bool true) (.str "x") (by decide) rfl⟩⟩

/-- C6: boolean composition short-circuits — for `X and Y`, an error or a
false from `X` is returned as-is (value and error both) for every `Y`, so
`Y` is not evaluated, and a true from `X` makes the result exactly `Y`'s
result; symmetrically for `X or Y` with true and false exchanged. -/
theorem C6_short_circuit :
    (∀ (x y : Expression) (d v : GoValue) (msg : String),
        evaluate x d = .errv v msg → evaluate (.binary .and x y) d = .errv v msg)
  ∧ (∀ (x y : Expression) (d : GoValue),
        evaluate x d = .ok (.bool false) → evaluate (.binary .and x y) d = .ok (.bool false))
  ∧ (∀ (x y : Expression) (d : GoValue),
        evaluate x d = .ok (.bool true) → evaluate (.binary .and x y) d = evaluate y d)
  ∧ (∀ (x y : Expression) (d v : GoValue) (msg : String),
        evaluate x d = .errv v msg → evaluate (.binary .or x y) d = .errv v msg)
  ∧ (∀ (x y : Expression) (d : GoValue),
        evaluate x d = .ok (.bool true) → evaluate (.binary .or x y) d = .ok (.bool true))
  ∧ (∀ (x y : Expression) (d : GoValue),
        evaluate x d = .ok (.bool false) → evaluate (.binary .or x y) d = evaluate y d) := by
  refine ⟨?_, ?_, ?_, ?_, ?_, ?_⟩
  · intro x y d v msg h
    simp only [evaluate]
    rw [h]
  · intro x y d h
    simp only [evaluate]
    rw [h]
  · intro x y d h
    simp only [evaluate]
    rw [h]
  · intro x y d v msg h
    simp only [evaluate]
    rw [h]
  · intro x y d h
    simp only [evaluate]
    rw [h]
  · intro x y d h
    simp only [evaluate]
    rw [h]

/-- Sample: the boolean literal `false` wrapped as an expression. -/
def falseLiteralExpr : Expression :=
  .exprValue (.mk (.val ⟨⟨.unknown, []⟩, .bool, "false", none⟩) .value .nil_)

/-- Sample: a right branch whose evaluation would error (a one-segment
selector missing from the empty datum). -/
def erroringExpr : Expression :=
  .matchExpr ⟨.equal, .mk (.val ⟨⟨.bexpr, ["missing"]⟩, .reflect, "", none⟩) .value .nil_,
    some (.mk (.val ⟨⟨.unknown, []⟩, .string, "v", none⟩) .value .nil_)⟩

/-- C6 witness: `false and <erroring>` evaluates to `(false, nil)` — the
erroring right branch is never consulted. -/
theorem C6_short_circuit_witness :
    evaluate falseLiteralExpr (.map []) = .ok (.bool false)
  ∧ evaluate (.binary .and falseLiteralExpr erroringExpr) (.map []) = .ok (.bool false) :=
  ⟨rfl, C6_short_circuit.2.1 falseLiteralExpr erroringExpr (.map []) rfl⟩

/-- C7: on string operands the primitive less-than function is prefix-of —
`doLowerString a b` holds exactly when `b` starts with `a` — and
consequently a `Lower` match on two strings returns whether the right
string has the left string as a prefix. -/
theorem C7_lower_on_strings_is_prefix :
    (∀ a b : String, doLowerString (.str a) (.str b) = strStartsWith b a)
  ∧ (∀ a b : String, doMatchLower (.str a) (.str b) = .ok (strStartsWith b a))
  ∧ (∀ (m : MatchExpression) (d : GoValue) (a b : String),
        m.operator = .lower →
        getExprValue (some m.left) d = .ok (.str a) →
        getExprValue m.right d = .ok (.str b) →
        evaluateMatchExpression m d = .ok (strStartsWith b a)) := by
  refine ⟨fun _ _ => rfl, fun _ _ => rfl, ?_⟩
  intro m d a b hop hl hr
  rw [evalMatch_both_ok m d (.str a) (.str b) hl rfl hr, hop]
  rfl

/-- Sample: the parser-shaped AST of `lhs < rhs` over two string-resolving
selectors. -/
def lhsLowerRhs : MatchExpression :=
  ⟨.lower, .mk (.val ⟨⟨.bexpr, ["lhs"]⟩, .reflect, "", none⟩) .value .nil_,
    some (.mk (.val ⟨⟨.bexpr, ["rhs"]⟩, .reflect, "", none⟩) .value .nil_)⟩

/-- C7 witness: against `{ lhs: "ban", rhs: "banana" }` the `Lower` match
returns true — `"banana"` starts with `"ban"`. -/
theorem C7_lower_on_strings_witness :
    lhsLowerRhs.operator = .lower
  ∧ getExprValue (some lhsLowerRhs.left) (.map [("lhs", .str "ban"), ("rhs", .str "banana")]) = .ok (.str "ban")
  ∧ getExprValue lhsLowerRhs.right (.map [("lhs", .str "ban"), ("rhs", .str "banana")]) = .ok (.str "banana")
  ∧ evaluateMatchExpression lhsLowerRhs (.map [("lhs", .str "ban"), ("rhs", .str "banana")])
      = .ok (strStartsWith "banana" "ban")
  ∧ strStartsWith "banana" "ban" = true :=
  ⟨rfl, rfl, rfl,
   C7_lower_on_strings_is_prefix.2.2 lhsLowerRhs _ "ban" "banana" rfl rfl rfl, rfl⟩

/-- C8: the `NotExpression` action collapses a Not applied to a Not, so on
any expression free of directly nested Nots (as every parsed AST is, Not
nodes being built only by this action), applying the action twice is the
identity, and the action never creates a directly nested Not pair. -/
theorem C8_not_not_collapses_to_identity (e : Expression) (h : notNotFree e = true) :
    notExpressionAction (notExpressionAction e) = e
  ∧ notNotFree (notExpressionAction e) = true := by
  cases e with
  | unary op inner =>
    cases op
    cases inner with
    | unary op2 j =>
      cases op2
      exact absurd h (by simp [notNotFree])
    | binary op2 l r => exact ⟨rfl, h⟩
    | matchExpr m => exact ⟨rfl, h⟩
    | exprValue ev => exact ⟨rfl, h⟩
    | matchValue mv => exact ⟨rfl, h⟩
  | binary op l r => exact ⟨rfl, h⟩
  | matchExpr m => exact ⟨rfl, h⟩
  | exprValue ev => exact ⟨rfl, h⟩
  | matchValue mv => exact ⟨rfl, h⟩

/-- C8 witness: two applications of the Not action on (the parse of)
`foo.bar == "baz"` — as for `not not (foo.bar == "baz")` — give back the
match expression unchanged, and a single application leaves the tree free
of directly nested Nots. -/
theorem C8_not_not_witness :
    notNotFree (.matchExpr fooBarEqualBaz) = true
  ∧ (notExpressionAction (notExpressionAction (.matchExpr fooBarEqualBaz)) = .matchExpr fooBarEqualBaz
      ∧ notNotFree (notExpressionAction (.matchExpr fooBarEqualBaz)) = true) :=
  ⟨rfl, C8_not_not_collapses_to_identity (.matchExpr fooBarEqualBaz) rfl⟩

/-- C9: a `MatchValue` of declared type `Undefined` (the parsed literal
`undefined`) evaluates to the sentinel with no error against every datum,
whatever its raw text, selector or memoized slot hold; consequently a match
expression whose left side is the parsed `undefined` literal returns its
operator's not-present disposition, for every operator, right side and
datum, and never errors. -/
theorem C9_undefined_literal_gives_disposition
    (sel : Selector) (raw : String) (conv : Option GoValue)
    (op : MatchOperator) (right : Option ExpressionValue) (datum : GoValue) :
    getValue ⟨sel, .undefined, raw, conv⟩ datum = .ok .undefined
  ∧ evaluateMatchExpression
      ⟨op, .mk (.val ⟨sel, .undefined, raw, conv⟩) .value .nil_, right⟩ datum
      = .ok op.notPresentDisposition :=
  ⟨rfl, rfl⟩

/-- C10: `doMatchIsEmpty` is total exactly on the kinds `reflect` can take a
length of — strings, slices and maps among our value kinds — where it
returns whether the length is zero; on every other kind (integers, bools,
floats) it panics through `reflect.Value.Len` rather than returning an
error; and the evaluator exposes this: with a clean, non-sentinel left
value, `IsEmpty` returns exactly `doMatchIsEmpty` and `IsNotEmpty` its
negation (errors passed through as `(false, err)`, panics propagating). -/
theorem C10_isEmpty_total_only_on_length_kinds :
    (∀ s : String, doMatchIsEmpty (.str s) = .ok (s.length == 0))
  ∧ (∀ xs : List GoValue, doMatchIsEmpty (.list xs) = .ok (xs.length == 0))
  ∧ (∀ ps : List (String × GoValue), doMatchIsEmpty (.map ps) = .ok (ps.length == 0))
  ∧ (∀ n : Int, doMatchIsEmpty (.int n) = .panic "reflect: call of reflect.Value.Len on int64 Value")
  ∧ (∀ b : Bool, doMatchIsEmpty (.bool b) = .panic "reflect: call of reflect.Value.Len on bool Value")
  ∧ (∀ q : Rat, doMatchIsEmpty (.float q) = .panic "reflect: call of reflect.Value.Len on float64 Value")
  ∧ (∀ (m : MatchExpression) (datum lv rv : GoValue),
        getExprValue (some m.left) datum = .ok lv →
        isUndefined lv = false →
        getExprValue m.right datum = .ok rv →
        (m.operator = .isEmpty → evaluateMatchExpression m datum = doMatchIsEmpty lv)
        ∧ (m.operator = .isNotEmpty → evaluateMatchExpression m datum =
            match doMatchIsEmpty lv with
            | .ok b => .ok !b
            | .errv _ msg => .errv false msg
            | .panic s => .panic s)) := by
  refine ⟨fun _ => rfl, fun _ => rfl, fun _ => rfl, fun _ => rfl, fun _ => rfl, fun _ => rfl, ?_⟩
  intro m datum lv rv hl hnu hr
  constructor
  · intro hop
    rw [evalMatch_both_ok m datum lv rv hl hnu hr, hop]
    rfl
  · intro hop
    rw [evalMatch_both_ok m datum lv rv hl hnu hr, hop]
    rcases h2 : doMatchIsEmpty lv with b | ⟨b, s⟩ | s <;> simp [matchOpDispatch, h2]

/-- Sample: the parser-shaped AST of `n is empty` (unary operators carry a
nil right side). -/
def nIsEmpty : MatchExpression :=
  ⟨.isEmpty, .mk (.val ⟨⟨.bexpr, ["n"]⟩, .reflect, "", none⟩) .value .nil_, none⟩

/-- C10 witness: `n is empty` against `{ n: 5 }` — the left value is an
int64, so the evaluation panics out of `reflect.Value.Len` instead of
returning an error. -/
theorem C10_isEmpty_panic_witness :
    getExprValue (some nIsEmpty.left) (.map [("n", .int 5)]) = .ok (.int 5)
  ∧ isUndefined (.int 5) = false
  ∧ getExprValue nIsEmpty.right (.map [("n", .int 5)]) = .ok .null
  ∧ nIsEmpty.operator = .isEmpty
  ∧ evaluateMatchExpression nIsEmpty (.map [("n", .int 5)])
      = .panic "reflect: call of reflect.Value.Len on int64 Value" :=
  ⟨rfl, rfl, rfl, rfl,
   (C10_isEmpty_total_only_on_length_kinds.2.2.2.2.2.2 nIsEmpty (.map [("n", .int 5)])
      (.int 5) .null rfl rfl rfl).1 rfl⟩

end Bexpr
